import Mathlib

/-!
Shallow embedding of the HackNu front-end API client
(`lib/api-client.ts`) and the wallet screen's transaction handler.

Modelling conventions:
* TypeScript `number` values that carry money or rates are modelled as
  exact rationals (`ℚ`).  `Number.prototype.toFixed(2)` is modelled by
  its ECMA-262 definition restated over `ℚ`: the integer `n` for which
  `n / 100` is closest to the argument, ties resolved to the larger `n`.
* The HTTP backend is an oracle (`Backend`): each request either
  returns a parsed `Transaction` or throws an error string, exactly the
  two outcomes of `createWithdrawal` / `createDeposit` in the source.
* Effectful functions return, besides their value, the ordered list of
  backend requests they issued (`RequestEvent`), so that ordering and
  absence of requests can be stated.
* JavaScript template-literal interpolation of a number into a string is
  abstracted as a parameter `showNum : ℚ → String`.
-/

namespace HackNu

/-- The `SupportedCrypto` union type of the source. -/
inductive SupportedCrypto
  | BTC
  | ETH
  | USDT
deriving DecidableEq

/-- The literal spelling of a `SupportedCrypto` symbol. -/
def symStr : SupportedCrypto → String
  | .BTC => "BTC"
  | .ETH => "ETH"
  | .USDT => "USDT"

/-- The `idMap` of `getCryptoRatesKZT`, mapping symbols to CoinGecko ids. -/
def idMap : SupportedCrypto → String
  | .BTC => "bitcoin"
  | .ETH => "ethereum"
  | .USDT => "tether"

/-- The `Transaction` response interface.  Its `amount` is a string in
the source (`amount: string`), kept as `String` here. -/
structure Transaction where
  id : Int
  user_id : Int
  account_id : Int
  amount : String
  currency : String
  transaction_type : String
  description : Option String := none
  to_user_id : Option Int := none
  to_account_id : Option Int := none
  product_id : Option Int := none
  created_at : String
  updated_at : String
  deleted_at : Option String := none
deriving DecidableEq

/-- The `Account` response interface (`balance: string` in the source). -/
structure Account where
  id : Int
  user_id : Int
  account_type : String
  balance : String
  currency : String
  status : String
  created_at : String
  updated_at : String
  deleted_at : Option String := none
deriving DecidableEq

/-- The `TransactionDepositRequest` interface (`amount: number`). -/
structure TransactionDepositRequest where
  account_id : Int
  amount : ℚ
  currency : String
  description : Option String := none
deriving DecidableEq

/-- The `TransactionWithdrawalRequest` interface (`amount: number`). -/
structure TransactionWithdrawalRequest where
  account_id : Int
  amount : ℚ
  currency : String
  description : Option String := none
deriving DecidableEq

/-- The `TransactionTransferRequest` interface (`amount: number`). -/
structure TransactionTransferRequest where
  from_account_id : Int
  to_account_id : Int
  amount : ℚ
  currency : String
  description : Option String := none
deriving DecidableEq

/-- The `AccountCreate` request interface (`balance?: number`). -/
structure AccountCreate where
  user_id : Int
  account_type : String
  balance : Option ℚ := none
  currency : String
deriving DecidableEq

/-- One backend request issued by the client, in issue order. -/
inductive RequestEvent
  | withdrawalReq (userId : Int) (req : TransactionWithdrawalRequest)
  | depositReq (userId : Int) (req : TransactionDepositRequest)
  | transferReq (userId : Int) (req : TransactionTransferRequest)
deriving DecidableEq

/-- The backend oracle: for each request, either the parsed
`Transaction` of a 2xx response or the error string thrown by the
client wrapper on a non-ok response. -/
structure Backend where
  withdrawalResult : Int → TransactionWithdrawalRequest → Except String Transaction
  depositResult : Int → TransactionDepositRequest → Except String Transaction

/-- `x.toFixed(2)` read back as a number, per ECMA-262: the integer
`n` minimising `|n / 100 - x|`, ties resolved to the larger `n`, i.e.
`⌊100 x + 1/2⌋ / 100`. -/
def toFixed2 (x : ℚ) : ℚ := (⌊x * 100 + 1 / 2⌋ : ℚ) / 100

/-- Rounding to the nearest integer with ties to the even integer
(banker's rounding).  This follows the SPEC's words ("round-half-even"),
for comparison with the source's `toFixed` rounding; it is not drawn
from the source. -/
def specRoundHalfEven (q : ℚ) : ℤ :=
  if q - (⌊q⌋ : ℚ) = 1 / 2 then (if 2 ∣ ⌊q⌋ then ⌊q⌋ else ⌊q⌋ + 1) else ⌊q + 1 / 2⌋

/-- The spec's "rounded to 2 decimal places using round-half-even". -/
def specRoundHalfEven2 (x : ℚ) : ℚ := (specRoundHalfEven (x * 100) : ℚ) / 100

/-- The parameter record of `convertCryptoToKZT`. -/
structure ConvertParams where
  userId : Int
  fromAccountId : Int
  fromSymbol : SupportedCrypto
  amountCrypto : ℚ
  toKZTAccountId : Int
  rateKZTPerCrypto : ℚ
deriving DecidableEq

/-- The success value of `convertCryptoToKZT`:
`{ withdrawal, deposit, kztAmount }`. -/
structure ConvertResult where
  withdrawal : Transaction
  deposit : Transaction
  kztAmount : ℚ
deriving DecidableEq

/-- The withdrawal-leg request built by `convertCryptoToKZT`. -/
def convertWithdrawalRequest (showNum : ℚ → String) (p : ConvertParams) :
    TransactionWithdrawalRequest :=
  { account_id := p.fromAccountId
    amount := p.amountCrypto
    currency := symStr p.fromSymbol
    description := some ("Convert " ++ showNum p.amountCrypto ++ " " ++ symStr p.fromSymbol
      ++ " to KZT") }

/-- The deposit-leg request built by `convertCryptoToKZT`; its amount
is `Number(kztAmount.toFixed(2))`. -/
def convertDepositRequest (showNum : ℚ → String) (p : ConvertParams) :
    TransactionDepositRequest :=
  { account_id := p.toKZTAccountId
    amount := toFixed2 (p.amountCrypto * p.rateKZTPerCrypto)
    currency := "KZT"
    description := some ("Converted from " ++ showNum p.amountCrypto ++ " "
      ++ symStr p.fromSymbol) }

/-- `convertCryptoToKZT` from the source: validates `amountCrypto > 0`,
computes the unrounded `kztAmount`, awaits the withdrawal, then awaits
the deposit of the rounded amount; any error propagates immediately.
Returns the result together with the requests issued. -/
def convertCryptoToKZT (b : Backend) (showNum : ℚ → String) (p : ConvertParams) :
    Except String ConvertResult × List RequestEvent :=
  if p.amountCrypto ≤ 0 then
    (.error "Amount must be positive", [])
  else
    let kztAmount := p.amountCrypto * p.rateKZTPerCrypto
    let wreq := convertWithdrawalRequest showNum p
    match b.withdrawalResult p.userId wreq with
    | .error e => (.error e, [.withdrawalReq p.userId wreq])
    | .ok withdrawal =>
      let dreq := convertDepositRequest showNum p
      match b.depositResult p.userId dreq with
      | .error e => (.error e, [.withdrawalReq p.userId wreq, .depositReq p.userId dreq])
      | .ok deposit =>
        (.ok ⟨withdrawal, deposit, kztAmount⟩,
          [.withdrawalReq p.userId wreq, .depositReq p.userId dreq])

/-- The per-symbol lookup loop of `getCryptoRatesKZT`: `forEach` in
order, throwing at the first symbol whose `kzt` price is absent,
otherwise accumulating `result[sym] = price`. -/
def collectRates (data : String → Option ℚ) :
    List SupportedCrypto → Except String (List (SupportedCrypto × ℚ))
  | [] => .ok []
  | sym :: rest =>
    match data (idMap sym) with
    | none => .error ("Rate for " ++ symStr sym ++ " not available")
    | some price =>
      match collectRates data rest with
      | .error e => .error e
      | .ok l => .ok ((sym, price) :: l)

/-- `getCryptoRatesKZT` from the source.  `ok` models `res.ok`; `data`
models the parsed provider response as a lookup from CoinGecko id to
the optional `kzt` price (`none` covers both a missing id and a
non-number price). -/
def getCryptoRatesKZT (ok : Bool) (data : String → Option ℚ)
    (symbols : List SupportedCrypto) : Except String (List (SupportedCrypto × ℚ)) :=
  if ok then collectRates data symbols else .error "Failed to fetch crypto rates"

/-- The modal type of the wallet screen. -/
inductive ModalType
  | deposit
  | withdrawal
  | transfer
deriving DecidableEq

/-- `handleTransaction` of the wallet screen, up to the point where a
backend request is issued.  `parsedAmount` is `parseFloat(amount)` with
`none` for `NaN`; `parsedToAccountId` is `parseInt(toAccountId)`
likewise.  Returns the validation alert, if any, and the requests
issued.  The screen's fixed `CURRENCY` is `"KZT"`; a falsy (empty)
description is sent as `undefined`. -/
def handleTransaction (modal : ModalType) (userId accountId : Int)
    (parsedAmount : Option ℚ) (parsedToAccountId : Option Int)
    (description : String) : Option String × List RequestEvent :=
  let desc : Option String := if description = "" then none else some description
  match parsedAmount with
  | none => (some "Please enter a valid amount", [])
  | some a =>
    if a ≤ 0 then (some "Please enter a valid amount", [])
    else
      match modal with
      | .deposit => (none, [.depositReq userId ⟨accountId, a, "KZT", desc⟩])
      | .withdrawal => (none, [.withdrawalReq userId ⟨accountId, a, "KZT", desc⟩])
      | .transfer =>
        match parsedToAccountId with
        | none => (some "Please enter a valid account ID", [])
        | some t =>
          if t ≤ 0 then (some "Please enter a valid account ID", [])
          else (none, [.transferReq userId ⟨accountId, t, a, "KZT", desc⟩])

/-- Modelled from the spec: the backend `POST /accounts` handler is not
in `src/` (only its Dockerfile and this client are).  Per §4.1 the
store "creates it with balance zero, status active"; the endpoint row
in §6 takes `{user_id, account_type, currency, balance?}`.  `newId`,
`ts` and the balance rendering `showBal` are backend-chosen. -/
def backendCreateAccount (showBal : ℚ → String) (req : AccountCreate)
    (newId : Int) (ts : String) : Account :=
  { id := newId
    user_id := req.user_id
    account_type := req.account_type
    balance := showBal (req.balance.getD 0)
    currency := req.currency
    status := "active"
    created_at := ts
    updated_at := ts
    deleted_at := none }

/-- The account-creation payload hard-coded in `loadData`. -/
def defaultAccountCreate (userId : Int) : AccountCreate :=
  { user_id := userId
    account_type := "checking"
    balance := some 0
    currency := "KZT" }

/-- The outcome of `loadData` relevant to accounts: which account ends
up displayed (`setAccount`) and which creation requests were issued. -/
structure LoadDataOutcome where
  displayed : Option Account
  creations : List AccountCreate
deriving DecidableEq

/-- `loadData` of the wallet screen, restricted to its account logic:
if `getUserAccounts` returned an empty list, create one default
checking account and display it; otherwise display the first account
returned. -/
def loadData (userId : Int) (accounts : List Account)
    (create : AccountCreate → Account) : LoadDataOutcome :=
  if accounts.length = 0 then
    let req := defaultAccountCreate userId
    let accountsData := [create req]
    { displayed := accountsData.head?, creations := [req] }
  else
    { displayed := accounts.head?, creations := [] }

/-- A JSON scalar as produced by `JSON.stringify` for the request
fields in scope (numbers and strings only). -/
inductive JsonValue
  | num (value : ℚ)
  | str (value : String)
deriving DecidableEq

/-- Whether a JSON scalar is a string. -/
def JsonValue.isStr : JsonValue → Bool
  | .str _ => true
  | .num _ => false

/-- `JSON.stringify` of a `TransactionDepositRequest`: fields in
declaration order, `amount` a JSON number (the field is typed
`number`), `undefined` description omitted. -/
def TransactionDepositRequest.stringifyFields (r : TransactionDepositRequest) :
    List (String × JsonValue) :=
  [("account_id", .num (r.account_id : ℚ)), ("amount", .num r.amount),
    ("currency", .str r.currency)]
    ++ (match r.description with
        | none => []
        | some d => [("description", .str d)])

/-- `JSON.stringify` of a `TransactionWithdrawalRequest`. -/
def TransactionWithdrawalRequest.stringifyFields (r : TransactionWithdrawalRequest) :
    List (String × JsonValue) :=
  [("account_id", .num (r.account_id : ℚ)), ("amount", .num r.amount),
    ("currency", .str r.currency)]
    ++ (match r.description with
        | none => []
        | some d => [("description", .str d)])

/-- `JSON.stringify` of a `TransactionTransferRequest`. -/
def TransactionTransferRequest.stringifyFields (r : TransactionTransferRequest) :
    List (String × JsonValue) :=
  [("from_account_id", .num (r.from_account_id : ℚ)),
    ("to_account_id", .num (r.to_account_id : ℚ)), ("amount", .num r.amount),
    ("currency", .str r.currency)]
    ++ (match r.description with
        | none => []
        | some d => [("description", .str d)])

/-- The optional filters argument of `getUserTransactions`. -/
structure TransactionFilters where
  account_id : Option Int := none
  transaction_type : Option String := none
  skip : Option Int := none
  limit : Option Int := none
deriving DecidableEq

/-- Whether a `RequestEvent` is a deposit request into account `accId`
(the shape a compensating reversal deposit would have). -/
def isDepositTo (accId : Int) : RequestEvent → Bool
  | .depositReq _ req => req.account_id == accId
  | _ => false

/-- Whether an `Except` is in its `ok` constructor. -/
def exceptOk {ε α : Type} : Except ε α → Bool
  | .ok _ => true
  | .error _ => false

/-- A fixed parsed 2xx response body for the withdrawal leg, used by
the concrete oracles below. -/
def txW : Transaction :=
  { id := 41, user_id := 1, account_id := 10, amount := "1", currency := "BTC",
    transaction_type := "withdrawal", created_at := "t1", updated_at := "t1" }

/-- A fixed parsed 2xx response body for the deposit leg. -/
def txD : Transaction :=
  { id := 42, user_id := 1, account_id := 20, amount := "100", currency := "KZT",
    transaction_type := "deposit", created_at := "t2", updated_at := "t2" }

/-- Concrete oracle: the withdrawal leg succeeds and the deposit leg
fails (non-ok response with no string detail, so the client wrapper
throws its fallback message). -/
def backendDepositFails : Backend :=
  { withdrawalResult := fun _ _ => .ok txW
    depositResult := fun _ _ => .error "Failed to create deposit" }

/-- Concrete oracle: both legs succeed. -/
def backendAllOk : Backend :=
  { withdrawalResult := fun _ _ => .ok txW
    depositResult := fun _ _ => .ok txD }

/-- A concrete stand-in for JS number-to-string interpolation. -/
def showNum0 : ℚ → String := fun _ => "1"

/-- Concrete conversion input: 1 BTC from account 10 to KZT account 20
at 100 KZT per BTC. -/
def p0 : ConvertParams :=
  { userId := 1, fromAccountId := 10, fromSymbol := .BTC, amountCrypto := 1,
    toKZTAccountId := 20, rateKZTPerCrypto := 100 }

/-- Concrete conversion input whose product `1 × 0.125 = 0.125` is an
exact rounding tie at 2 decimals (and exactly representable in binary
floating point, so the modelled tie also occurs at runtime). -/
def pTie : ConvertParams :=
  { userId := 1, fromAccountId := 10, fromSymbol := .BTC, amountCrypto := 1,
    toKZTAccountId := 20, rateKZTPerCrypto := 1 / 8 }

/-- Concrete conversion input with a non-positive amount. -/
def pZero : ConvertParams :=
  { userId := 1, fromAccountId := 10, fromSymbol := .BTC, amountCrypto := 0,
    toKZTAccountId := 20, rateKZTPerCrypto := 100 }

/-- Concrete provider response holding a KZT price for bitcoin only. -/
def dataBTCOnly : String → Option ℚ :=
  fun id => if id = "bitcoin" then some 100 else none

/-- Concrete deposit request of 500 KZT into account 5. -/
def rDep0 : TransactionDepositRequest :=
  { account_id := 5, amount := 500, currency := "KZT" }

/-- A concrete stand-in for the backend's balance rendering. -/
def showBal0 : ℚ → String := fun _ => "0"

/-- A concrete existing account, for the non-empty `loadData` branch. -/
def acc0 : Account :=
  { id := 3, user_id := 1, account_type := "checking", balance := "250",
    currency := "KZT", status := "active", created_at := "t0", updated_at := "t0" }

/-- The query parameters built by `getUserTransactions`: `skip` and
`limit` always present with defaults `0` and `100` (`?? 0`, `?? 100`),
`account_id` and `transaction_type` appended only when truthy (a JS
number is falsy exactly when it is `0` or `NaN`; a string when empty). -/
def getUserTransactionsParams (filters : Option TransactionFilters) :
    List (String × String) :=
  let base := [("skip", toString ((filters.bind TransactionFilters.skip).getD 0)),
    ("limit", toString ((filters.bind TransactionFilters.limit).getD 100))]
  let withAccount :=
    match filters.bind TransactionFilters.account_id with
    | some v => if v ≠ 0 then base ++ [("account_id", toString v)] else base
    | none => base
  match filters.bind TransactionFilters.transaction_type with
  | some s => if s ≠ "" then withAccount ++ [("transaction_type", s)] else withAccount
  | none => withAccount

/-- A non-positive amount short-circuits `convertCryptoToKZT` before
any request is issued. -/
theorem convert_eq_of_nonpos (b : Backend) (showNum : ℚ → String) (p : ConvertParams)
    (h : p.amountCrypto ≤ 0) :
    convertCryptoToKZT b showNum p = (.error "Amount must be positive", []) := by
  simp [convertCryptoToKZT, h]

/-- If the withdrawal leg fails, `convertCryptoToKZT` stops after that
single request. -/
theorem convert_eq_of_withdrawal_error (b : Backend) (showNum : ℚ → String)
    (p : ConvertParams) (e : String) (h : 0 < p.amountCrypto)
    (hw : b.withdrawalResult p.userId (convertWithdrawalRequest showNum p) = .error e) :
    convertCryptoToKZT b showNum p =
      (.error e, [.withdrawalReq p.userId (convertWithdrawalRequest showNum p)]) := by
  simp [convertCryptoToKZT, not_le.mpr h, hw]

/-- If the withdrawal leg succeeds and the deposit leg fails,
`convertCryptoToKZT` returns the deposit error after exactly the two
requests, with no further (compensating) request. -/
theorem convert_eq_of_deposit_error (b : Backend) (showNum : ℚ → String)
    (p : ConvertParams) (t : Transaction) (e : String) (h : 0 < p.amountCrypto)
    (hw : b.withdrawalResult p.userId (convertWithdrawalRequest showNum p) = .ok t)
    (hd : b.depositResult p.userId (convertDepositRequest showNum p) = .error e) :
    convertCryptoToKZT b showNum p =
      (.error e, [.withdrawalReq p.userId (convertWithdrawalRequest showNum p),
        .depositReq p.userId (convertDepositRequest showNum p)]) := by
  simp [convertCryptoToKZT, not_le.mpr h, hw, hd]

/-- If both legs succeed, `convertCryptoToKZT` returns both parsed
transactions and the unrounded product, after exactly the two
requests. -/
theorem convert_eq_of_ok (b : Backend) (showNum : ℚ → String)
    (p : ConvertParams) (tw td : Transaction) (h : 0 < p.amountCrypto)
    (hw : b.withdrawalResult p.userId (convertWithdrawalRequest showNum p) = .ok tw)
    (hd : b.depositResult p.userId (convertDepositRequest showNum p) = .ok td) :
    convertCryptoToKZT b showNum p =
      (.ok ⟨tw, td, p.amountCrypto * p.rateKZTPerCrypto⟩,
        [.withdrawalReq p.userId (convertWithdrawalRequest showNum p),
          .depositReq p.userId (convertDepositRequest showNum p)]) := by
  simp [convertCryptoToKZT, not_le.mpr h, hw, hd]

/-- `toFixed2` never moves a value by more than half a minor unit. -/
theorem abs_toFixed2_sub_le (x : ℚ) : |toFixed2 x - x| ≤ 1 / 200 := by
  have h1 : (⌊x * 100 + 1 / 2⌋ : ℚ) ≤ x * 100 + 1 / 2 := Int.floor_le _
  have h2 : x * 100 + 1 / 2 < ⌊x * 100 + 1 / 2⌋ + 1 := Int.lt_floor_add_one _
  rw [toFixed2, abs_le]
  constructor <;> linarith

/-- No string starting `Convert ` (followed by a space) equals one
starting `Converted from `: they differ at their eighth character. -/
theorem convert_desc_ne (a b : String) : "Convert " ++ a ≠ "Converted from " ++ b := by
  intro h
  have h2 : ("Convert " ++ a).data = ("Converted from " ++ b).data := by rw [h]
  rw [String.data_append, String.data_append] at h2
  have e1 : "Convert ".data = ['C', 'o', 'n', 'v', 'e', 'r', 't', ' '] := rfl
  have e2 : "Converted from ".data
      = ['C', 'o', 'n', 'v', 'e', 'r', 't', 'e', 'd', ' ', 'f', 'r', 'o', 'm', ' '] := rfl
  rw [e1, e2] at h2
  simp at h2

/-- The withdrawal-leg and deposit-leg descriptions of a conversion
are never equal, whatever the number rendering. -/
theorem convert_descriptions_ne (showNum : ℚ → String) (p : ConvertParams) :
    (convertWithdrawalRequest showNum p).description
      ≠ (convertDepositRequest showNum p).description := by
  rw [convertWithdrawalRequest, convertDepositRequest]
  intro h
  have h2 := Option.some.inj h
  rw [String.append_assoc, String.append_assoc, String.append_assoc,
    String.append_assoc] at h2
  exact convert_desc_ne _ _ h2

/-- If some requested symbol has no usable price, the rate loop throws. -/
theorem collectRates_error_of_missing (data : String → Option ℚ)
    (symbols : List SupportedCrypto) (s : SupportedCrypto)
    (hs : s ∈ symbols) (hnone : data (idMap s) = none) :
    exceptOk (collectRates data symbols) = false := by
  induction symbols with
  | nil => cases hs
  | cons x rest ih =>
    rw [collectRates]
    rcases List.mem_cons.mp hs with hx | hrest
    · subst hx
      rw [hnone]
      rfl
    · cases hdx : data (idMap x) with
      | none => rfl
      | some price =>
        have := ih hrest
        cases hc : collectRates data rest with
        | error e => rfl
        | ok l => rw [hc] at this; exact absurd this (by simp [exceptOk])

/-- If every requested symbol has a usable price, the rate loop
returns them all, in request order. -/
theorem collectRates_ok_of_all (data : String → Option ℚ)
    (symbols : List SupportedCrypto)
    (hall : ∀ s ∈ symbols, (data (idMap s)).isSome) :
    collectRates data symbols
      = .ok (symbols.map fun s => (s, (data (idMap s)).getD 0)) := by
  induction symbols with
  | nil => rfl
  | cons x rest ih =>
    have hx := hall x (List.mem_cons_self x rest)
    cases hdx : data (idMap x) with
    | none => rw [hdx] at hx; cases hx
    | some price =>
      rw [collectRates, hdx, ih fun s hs => hall s (List.mem_cons_of_mem x hs)]
      simp [hdx]

/-- Claim C1 is false on the code: at this concrete input the
withdrawal leg succeeds, the deposit leg fails, and `convertCryptoToKZT`
returns the deposit error having issued exactly the withdrawal and the
failed deposit attempt — no compensating reversal deposit back to the
source account (id 10) is ever issued, so the source debit stands. -/
theorem c1_counterexample :
    (convertCryptoToKZT backendDepositFails showNum0 p0).1
        = .error "Failed to create deposit" ∧
    (convertCryptoToKZT backendDepositFails showNum0 p0).2
        = [.withdrawalReq 1 (convertWithdrawalRequest showNum0 p0),
            .depositReq 1 (convertDepositRequest showNum0 p0)] ∧
    ((convertCryptoToKZT backendDepositFails showNum0 p0).2.filter
        (isDepositTo p0.fromAccountId)) = [] :=
  ⟨rfl, rfl, rfl⟩

/-- Claim C1 (amended): when the withdrawal leg has succeeded and the
deposit leg then fails, `convertCryptoToKZT` surfaces the deposit
error directly and returns after exactly those two requests; no
compensating reversal deposit back to the source account is executed,
so the source debit is left standing. -/
theorem c1_deposit_failure_no_reversal (b : Backend) (showNum : ℚ → String)
    (p : ConvertParams) (t : Transaction) (e : String) (h : 0 < p.amountCrypto)
    (hw : b.withdrawalResult p.userId (convertWithdrawalRequest showNum p) = .ok t)
    (hd : b.depositResult p.userId (convertDepositRequest showNum p) = .error e) :
    convertCryptoToKZT b showNum p =
      (.error e, [.withdrawalReq p.userId (convertWithdrawalRequest showNum p),
        .depositReq p.userId (convertDepositRequest showNum p)]) ∧
    (p.toKZTAccountId ≠ p.fromAccountId →
      ((convertCryptoToKZT b showNum p).2.filter (isDepositTo p.fromAccountId)) = []) := by
  have hmain := convert_eq_of_deposit_error b showNum p t e h hw hd
  refine ⟨hmain, fun hne => ?_⟩
  rw [hmain]
  have hb : (p.toKZTAccountId == p.fromAccountId) = false := beq_eq_false_iff_ne.mpr hne
  simp [isDepositTo, convertDepositRequest, List.filter, hb]

/-- Witness for C1 (amended) at the concrete failing oracle. -/
theorem c1_witness :
    convertCryptoToKZT backendDepositFails showNum0 p0 =
      (.error "Failed to create deposit",
        [.withdrawalReq 1 (convertWithdrawalRequest showNum0 p0),
          .depositReq 1 (convertDepositRequest showNum0 p0)]) ∧
    ((convertCryptoToKZT backendDepositFails showNum0 p0).2.filter
        (isDepositTo p0.fromAccountId)) = [] :=
  ⟨(c1_deposit_failure_no_reversal backendDepositFails showNum0 p0 txW
      "Failed to create deposit" (by decide) rfl rfl).1,
    (c1_deposit_failure_no_reversal backendDepositFails showNum0 p0 txW
      "Failed to create deposit" (by decide) rfl rfl).2 (by decide)⟩

/-- Claim C2 is false on the code: at amount 1 and rate 0.125 the
product 0.125 is a rounding tie; `toFixed(2)` sends the deposit leg
12.5 minor units rounded up to 0.13, while round-half-even (what the
claim states) yields 0.12. -/
theorem c2_counterexample :
    0 < pTie.amountCrypto ∧ 0 < pTie.rateKZTPerCrypto ∧
    (convertCryptoToKZT backendAllOk showNum0 pTie).2
        = [.withdrawalReq 1 (convertWithdrawalRequest showNum0 pTie),
            .depositReq 1 (convertDepositRequest showNum0 pTie)] ∧
    (convertDepositRequest showNum0 pTie).amount = 13 / 100 ∧
    specRoundHalfEven2 (pTie.amountCrypto * pTie.rateKZTPerCrypto) = 12 / 100 ∧
    (13 : ℚ) / 100 ≠ 12 / 100 := by
  refine ⟨by norm_num [pTie], by norm_num [pTie], rfl, ?_, ?_, by norm_num⟩
  · norm_num [convertDepositRequest, pTie, toFixed2]
  · norm_num [specRoundHalfEven2, specRoundHalfEven, pTie]

/-- Claim C2 (amended): the fiat amount sent in the deposit leg is the
product rounded to 2 decimal places by `toFixed`'s rule — nearest,
with ties to the larger value — not round-half-even; the rounding
error still never exceeds half a minor unit, so the value entering the
destination equals the value leaving the source converted at the
quoted rate within 0.005 KZT. -/
theorem c2_deposit_amount_rounding (showNum : ℚ → String) (p : ConvertParams) :
    (convertDepositRequest showNum p).amount
        = toFixed2 (p.amountCrypto * p.rateKZTPerCrypto) ∧
    |toFixed2 (p.amountCrypto * p.rateKZTPerCrypto)
        - p.amountCrypto * p.rateKZTPerCrypto| ≤ 1 / 200 :=
  ⟨rfl, abs_toFixed2_sub_le _⟩

/-- Witness for C2 (amended) at the concrete input `p0`. -/
theorem c2_witness :
    (convertDepositRequest showNum0 p0).amount
        = toFixed2 (p0.amountCrypto * p0.rateKZTPerCrypto) ∧
    |toFixed2 (p0.amountCrypto * p0.rateKZTPerCrypto)
        - p0.amountCrypto * p0.rateKZTPerCrypto| ≤ 1 / 200 :=
  c2_deposit_amount_rounding showNum0 p0

/-- Claim C3 is false on the code: this successful conversion issues
exactly two requests, but they carry no shared linking identifier —
the request payloads have only account, amount, currency and
description fields, and at this input every one of those differs
between the two legs. -/
theorem c3_counterexample :
    (convertCryptoToKZT backendAllOk showNum0 p0).1
        = .ok ⟨txW, txD, p0.amountCrypto * p0.rateKZTPerCrypto⟩ ∧
    (convertCryptoToKZT backendAllOk showNum0 p0).2
        = [.withdrawalReq 1 (convertWithdrawalRequest showNum0 p0),
            .depositReq 1 (convertDepositRequest showNum0 p0)] ∧
    (convertWithdrawalRequest showNum0 p0).account_id
        ≠ (convertDepositRequest showNum0 p0).account_id ∧
    (convertWithdrawalRequest showNum0 p0).amount
        ≠ (convertDepositRequest showNum0 p0).amount ∧
    (convertWithdrawalRequest showNum0 p0).currency
        ≠ (convertDepositRequest showNum0 p0).currency ∧
    (convertWithdrawalRequest showNum0 p0).description
        ≠ (convertDepositRequest showNum0 p0).description := by
  refine ⟨rfl, rfl, by decide, ?_, by decide, by decide⟩
  norm_num [convertWithdrawalRequest, convertDepositRequest, p0, toFixed2]

/-- Claim C3 (amended): every successful conversion issues exactly two
requests — one withdrawal leg then one deposit leg — but they carry no
linking identifier; the only operation-specific text, the two
descriptions, always differs between the legs. -/
theorem c3_two_requests_no_shared_link (b : Backend) (showNum : ℚ → String)
    (p : ConvertParams) (tw td : Transaction) (h : 0 < p.amountCrypto)
    (hw : b.withdrawalResult p.userId (convertWithdrawalRequest showNum p) = .ok tw)
    (hd : b.depositResult p.userId (convertDepositRequest showNum p) = .ok td) :
    (convertCryptoToKZT b showNum p).2
        = [.withdrawalReq p.userId (convertWithdrawalRequest showNum p),
            .depositReq p.userId (convertDepositRequest showNum p)] ∧
    (convertWithdrawalRequest showNum p).description
        ≠ (convertDepositRequest showNum p).description := by
  have hmain := convert_eq_of_ok b showNum p tw td h hw hd
  exact ⟨by rw [hmain], convert_descriptions_ne showNum p⟩

/-- Witness for C3 (amended) at the concrete all-ok oracle. -/
theorem c3_witness :
    (convertCryptoToKZT backendAllOk showNum0 p0).2
        = [.withdrawalReq 1 (convertWithdrawalRequest showNum0 p0),
            .depositReq 1 (convertDepositRequest showNum0 p0)] ∧
    (convertWithdrawalRequest showNum0 p0).description
        ≠ (convertDepositRequest showNum0 p0).description :=
  c3_two_requests_no_shared_link backendAllOk showNum0 p0 txW txD (by decide) rfl rfl

/-- Claim C4 is false on the code: with bitcoin priced but ethereum
missing, `getCryptoRatesKZT` throws for the whole batch instead of
returning the successful BTC rate plus a per-symbol failure list. -/
theorem c4_counterexample :
    getCryptoRatesKZT true dataBTCOnly [.BTC, .ETH]
        = .error "Rate for ETH not available" ∧
    dataBTCOnly (idMap .BTC) = some 100 :=
  ⟨rfl, rfl⟩

/-- Claim C4 (amended): if any requested symbol lacks a usable price,
`getCryptoRatesKZT` fails the whole batch (the first missing symbol's
error is thrown and no partial result is returned); only when every
symbol has a price does it return all the rates, in request order. -/
theorem c4_batch_fails_on_missing_symbol (data : String → Option ℚ)
    (symbols : List SupportedCrypto) (s : SupportedCrypto)
    (hs : s ∈ symbols) (hnone : data (idMap s) = none) :
    exceptOk (getCryptoRatesKZT true data symbols) = false ∧
    (∀ d2 : String → Option ℚ, (∀ x ∈ symbols, (d2 (idMap x)).isSome) →
      getCryptoRatesKZT true d2 symbols
        = .ok (symbols.map fun x => (x, (d2 (idMap x)).getD 0))) :=
  ⟨collectRates_error_of_missing data symbols s hs hnone,
    fun d2 hall => collectRates_ok_of_all d2 symbols hall⟩

/-- Witness for C4 (amended) at the concrete partial provider data. -/
theorem c4_witness :
    exceptOk (getCryptoRatesKZT true dataBTCOnly [.BTC, .ETH]) = false ∧
    getCryptoRatesKZT true dataBTCOnly [.BTC, .ETH]
        = .error "Rate for ETH not available" :=
  ⟨(c4_batch_fails_on_missing_symbol dataBTCOnly [.BTC, .ETH] .ETH
      (by simp) rfl).1, rfl⟩

/-- Claim C5: a conversion with non-positive `amountCrypto` fails with
the validation error before any request is issued, and a form
submission whose parsed amount is `NaN` (`none`) or non-positive is
rejected by `handleTransaction` with the validation alert and issues
no request — in both cases account state is untouched because no
backend request exists to touch it. -/
theorem c5_nonpositive_rejected_before_any_request :
    (∀ (b : Backend) (showNum : ℚ → String) (p : ConvertParams),
      p.amountCrypto ≤ 0 →
      convertCryptoToKZT b showNum p = (.error "Amount must be positive", [])) ∧
    (∀ (modal : ModalType) (userId accountId : Int) (pt : Option Int) (d : String),
      handleTransaction modal userId accountId none pt d
        = (some "Please enter a valid amount", [])) ∧
    (∀ (modal : ModalType) (userId accountId : Int) (a : ℚ) (pt : Option Int)
      (d : String), a ≤ 0 →
      handleTransaction modal userId accountId (some a) pt d
        = (some "Please enter a valid amount", [])) := by
  refine ⟨fun b showNum p h => convert_eq_of_nonpos b showNum p h,
    fun modal userId accountId pt d => rfl,
    fun modal userId accountId a pt d ha => ?_⟩
  simp [handleTransaction, ha]

/-- Witness for C5 at amount 0 for the conversion, and at parsed
amount 0 and parsed `NaN` for the form handler. -/
theorem c5_witness :
    convertCryptoToKZT backendAllOk showNum0 pZero
        = (.error "Amount must be positive", []) ∧
    handleTransaction .deposit 1 5 (some 0) none ""
        = (some "Please enter a valid amount", []) ∧
    handleTransaction .transfer 1 5 none none "note"
        = (some "Please enter a valid amount", []) :=
  ⟨c5_nonpositive_rejected_before_any_request.1 backendAllOk showNum0 pZero (by decide),
    c5_nonpositive_rejected_before_any_request.2.2 .deposit 1 5 0 none "" (by decide),
    c5_nonpositive_rejected_before_any_request.2.1 .transfer 1 5 none "note"⟩

/-- Claim C6: the deposit (credit) request is issued only after the
withdrawal (debit) has completed successfully — any trace containing a
deposit request is exactly withdrawal-then-deposit, and the withdrawal
result was `ok`; in particular the deposit is never issued first. -/
theorem c6_debit_before_credit (b : Backend) (showNum : ℚ → String)
    (p : ConvertParams) (uid : Int) (req : TransactionDepositRequest)
    (h : RequestEvent.depositReq uid req ∈ (convertCryptoToKZT b showNum p).2) :
    (convertCryptoToKZT b showNum p).2
        = [.withdrawalReq p.userId (convertWithdrawalRequest showNum p),
            .depositReq p.userId (convertDepositRequest showNum p)] ∧
    exceptOk (b.withdrawalResult p.userId (convertWithdrawalRequest showNum p))
        = true := by
  by_cases hpos : p.amountCrypto ≤ 0
  · rw [convert_eq_of_nonpos b showNum p hpos] at h
    simp at h
  · cases hw : b.withdrawalResult p.userId (convertWithdrawalRequest showNum p) with
    | error e =>
      rw [convert_eq_of_withdrawal_error b showNum p e (lt_of_not_le hpos) hw] at h
      simp at h
    | ok t =>
      cases hd : b.depositResult p.userId (convertDepositRequest showNum p) with
      | error e =>
        exact ⟨by
          rw [convert_eq_of_deposit_error b showNum p t e (lt_of_not_le hpos) hw hd],
          rfl⟩
      | ok td =>
        exact ⟨by rw [convert_eq_of_ok b showNum p t td (lt_of_not_le hpos) hw hd],
          rfl⟩

/-- Witness for C6: a trace that does contain a deposit request. -/
theorem c6_witness :
    (convertCryptoToKZT backendDepositFails showNum0 p0).2
        = [.withdrawalReq 1 (convertWithdrawalRequest showNum0 p0),
            .depositReq 1 (convertDepositRequest showNum0 p0)] ∧
    exceptOk (backendDepositFails.withdrawalResult 1
        (convertWithdrawalRequest showNum0 p0)) = true :=
  c6_debit_before_credit backendDepositFails showNum0 p0 1
    (convertDepositRequest showNum0 p0)
    (List.mem_cons_of_mem _ (List.mem_cons_self _ _))

/-- Claim C7 is false on the code: the serialised deposit body carries
`amount` as a JSON number (here the number 500), not as a decimal
string. -/
theorem c7_counterexample :
    (TransactionDepositRequest.stringifyFields rDep0).lookup "amount"
        = some (.num 500) ∧
    JsonValue.isStr (((TransactionDepositRequest.stringifyFields rDep0).lookup
        "amount").getD (.str "")) = false :=
  ⟨rfl, rfl⟩

/-- Claim C7 (amended): every monetary amount field in the deposit,
withdrawal and transfer request bodies is transmitted as a JSON number
(the interfaces type `amount: number` and `JSON.stringify` serialises
it as a number), never as a decimal string. -/
theorem c7_amounts_are_json_numbers (r : TransactionDepositRequest)
    (w : TransactionWithdrawalRequest) (t : TransactionTransferRequest) :
    r.stringifyFields.lookup "amount" = some (.num r.amount) ∧
    w.stringifyFields.lookup "amount" = some (.num w.amount) ∧
    t.stringifyFields.lookup "amount" = some (.num t.amount) ∧
    ∀ s : String, r.stringifyFields.lookup "amount" ≠ some (.str s) := by
  refine ⟨rfl, rfl, rfl, fun s h => ?_⟩
  have hl : r.stringifyFields.lookup "amount" = some (JsonValue.num r.amount) := rfl
  rw [hl] at h
  simp at h

/-- Witness for C7 (amended) at concrete requests. -/
theorem c7_witness :
    (TransactionDepositRequest.stringifyFields rDep0).lookup "amount"
        = some (.num rDep0.amount) ∧
    (TransactionWithdrawalRequest.stringifyFields ⟨10, 1, "BTC", none⟩).lookup "amount"
        = some (.num 1) ∧
    (TransactionTransferRequest.stringifyFields ⟨3, 4, 25, "KZT", none⟩).lookup "amount"
        = some (.num 25) :=
  ⟨(c7_amounts_are_json_numbers rDep0 ⟨10, 1, "BTC", none⟩ ⟨3, 4, 25, "KZT", none⟩).1,
    (c7_amounts_are_json_numbers rDep0 ⟨10, 1, "BTC", none⟩ ⟨3, 4, 25, "KZT", none⟩).2.1,
    (c7_amounts_are_json_numbers rDep0 ⟨10, 1, "BTC", none⟩
      ⟨3, 4, 25, "KZT", none⟩).2.2.1⟩

/-- Claim C8: when the account list is empty, `loadData` creates
exactly one account with the hard-coded payload (type checking,
balance 0, currency KZT) and displays the created account — which the
spec-modelled backend returns with status active and the requested
zero balance; when the list is non-empty, no account is created and
the first account is displayed. -/
theorem c8_lazy_account_creation (userId : Int) (accounts : List Account)
    (showBal : ℚ → String) (newId : Int) (ts : String) :
    (accounts = [] →
      loadData userId accounts (fun req => backendCreateAccount showBal req newId ts)
        = { displayed := some (backendCreateAccount showBal
              (defaultAccountCreate userId) newId ts),
            creations := [defaultAccountCreate userId] } ∧
      (defaultAccountCreate userId).account_type = "checking" ∧
      (defaultAccountCreate userId).balance = some 0 ∧
      (defaultAccountCreate userId).currency = "KZT" ∧
      (backendCreateAccount showBal (defaultAccountCreate userId) newId ts).status
        = "active" ∧
      (backendCreateAccount showBal (defaultAccountCreate userId) newId ts).balance
        = showBal 0) ∧
    (accounts ≠ [] →
      loadData userId accounts (fun req => backendCreateAccount showBal req newId ts)
        = { displayed := accounts.head?, creations := [] }) := by
  constructor
  · intro hempty
    subst hempty
    exact ⟨rfl, rfl, rfl, rfl, rfl, rfl⟩
  · intro hne
    rw [loadData, if_neg fun hh => hne (List.length_eq_zero.mp hh)]

/-- Witness for C8 at an empty and at a one-element account list. -/
theorem c8_witness :
    loadData 1 [] (fun req => backendCreateAccount showBal0 req 7 "t0")
        = { displayed := some (backendCreateAccount showBal0
              (defaultAccountCreate 1) 7 "t0"),
            creations := [defaultAccountCreate 1] } ∧
    (backendCreateAccount showBal0 (defaultAccountCreate 1) 7 "t0").status
        = "active" ∧
    loadData 1 [acc0] (fun req => backendCreateAccount showBal0 req 7 "t0")
        = { displayed := some acc0, creations := [] } :=
  ⟨((c8_lazy_account_creation 1 [] showBal0 7 "t0").1 rfl).1,
    ((c8_lazy_account_creation 1 [] showBal0 7 "t0").1 rfl).2.2.2.2.1,
    (c8_lazy_account_creation 1 [acc0] showBal0 7 "t0").2 (List.cons_ne_nil acc0 [])⟩

/-- Claim C9: on success, the returned `kztAmount` is the unrounded
product while the deposit leg carries the `toFixed(2)`-rounded amount,
and at the concrete tie input the two differ (0.125 vs 0.13). -/
theorem c9_returned_amount_unrounded (b : Backend) (showNum : ℚ → String)
    (p : ConvertParams) (tw td : Transaction) (h : 0 < p.amountCrypto)
    (hw : b.withdrawalResult p.userId (convertWithdrawalRequest showNum p) = .ok tw)
    (hd : b.depositResult p.userId (convertDepositRequest showNum p) = .ok td) :
    (convertCryptoToKZT b showNum p).1
        = .ok ⟨tw, td, p.amountCrypto * p.rateKZTPerCrypto⟩ ∧
    (convertDepositRequest showNum p).amount
        = toFixed2 (p.amountCrypto * p.rateKZTPerCrypto) ∧
    (convertDepositRequest showNum0 pTie).amount
        ≠ pTie.amountCrypto * pTie.rateKZTPerCrypto := by
  refine ⟨by rw [convert_eq_of_ok b showNum p tw td h hw hd], rfl, ?_⟩
  norm_num [convertDepositRequest, pTie, toFixed2]

/-- Witness for C9 at the concrete all-ok oracle. -/
theorem c9_witness :
    (convertCryptoToKZT backendAllOk showNum0 p0).1
        = .ok ⟨txW, txD, p0.amountCrypto * p0.rateKZTPerCrypto⟩ ∧
    (convertDepositRequest showNum0 p0).amount
        = toFixed2 (p0.amountCrypto * p0.rateKZTPerCrypto) ∧
    (convertDepositRequest showNum0 pTie).amount
        ≠ pTie.amountCrypto * pTie.rateKZTPerCrypto :=
  c9_returned_amount_unrounded backendAllOk showNum0 p0 txW txD (by decide) rfl rfl

/-- The full shape of the query-parameter list built by
`getUserTransactions`. -/
theorem getUserTransactionsParams_eq (f : Option TransactionFilters) :
    getUserTransactionsParams f
      = [("skip", toString ((f.bind TransactionFilters.skip).getD 0)),
          ("limit", toString ((f.bind TransactionFilters.limit).getD 100))]
        ++ (match f.bind TransactionFilters.account_id with
            | some v => if v ≠ 0 then [("account_id", toString v)] else []
            | none => [])
        ++ (match f.bind TransactionFilters.transaction_type with
            | some s => if s ≠ "" then [("transaction_type", s)] else []
            | none => []) := by
  rw [getUserTransactionsParams]
  rcases hacc : f.bind TransactionFilters.account_id with - | v <;>
    rcases htt : f.bind TransactionFilters.transaction_type with - | s <;>
    simp only [hacc, htt] <;> (try split_ifs) <;> simp

/-- Claim C10: the request always carries `skip` and `limit`
(defaulting to 0 and 100 when omitted), and `account_id` is included
only when the provided id is truthy — an id of 0, like an absent one,
is silently dropped. -/
theorem c10_query_params (f : Option TransactionFilters) (v : Int) :
    getUserTransactionsParams none = [("skip", "0"), ("limit", "100")] ∧
    ("skip", toString ((f.bind TransactionFilters.skip).getD 0))
        ∈ getUserTransactionsParams f ∧
    ("limit", toString ((f.bind TransactionFilters.limit).getD 100))
        ∈ getUserTransactionsParams f ∧
    (f.bind TransactionFilters.account_id = some 0 ∨
        f.bind TransactionFilters.account_id = none →
      ∀ s, ("account_id", s) ∉ getUserTransactionsParams f) ∧
    (f.bind TransactionFilters.account_id = some v → v ≠ 0 →
      ("account_id", toString v) ∈ getUserTransactionsParams f) := by
  have hchar := getUserTransactionsParams_eq f
  refine ⟨rfl, ?_, ?_, ?_, ?_⟩
  · rw [hchar]
    exact List.mem_append_left _ (List.mem_append_left _ (List.mem_cons_self _ _))
  · rw [hchar]
    exact List.mem_append_left _ (List.mem_append_left _
      (List.mem_cons_of_mem _ (List.mem_cons_self _ _)))
  · intro hacc s hmem
    rw [hchar] at hmem
    have hacc2 : (match f.bind TransactionFilters.account_id with
        | some v2 => if v2 ≠ 0 then [("account_id", toString v2)] else []
        | none => ([] : List (String × String))) = [] := by
      rcases hacc with h0 | h0 <;> (rw [h0]; try simp)
    rw [hacc2] at hmem
    rcases htt : f.bind TransactionFilters.transaction_type with - | st <;>
      rw [htt] at hmem
    · simp at hmem
    · by_cases hst : st ≠ "" <;> simp [hst] at hmem
  · intro hacc hv
    rw [hchar, hacc]
    simp [hv]

/-- Witness for C10: defaults with no filters, an id of 0 dropped, a
nonzero id included. -/
theorem c10_witness :
    getUserTransactionsParams none = [("skip", "0"), ("limit", "100")] ∧
    ("account_id", "0") ∉ getUserTransactionsParams
        (some ⟨some 0, none, none, none⟩) ∧
    ("account_id", "5") ∈ getUserTransactionsParams
        (some ⟨some 5, none, none, none⟩) :=
  ⟨(c10_query_params none 1).1,
    (c10_query_params (some ⟨some 0, none, none, none⟩) 1).2.2.2.1 (Or.inl rfl) "0",
    (c10_query_params (some ⟨some 5, none, none, none⟩) 5).2.2.2.2 rfl (by decide)⟩

end HackNu
